import Mathlib

/-!
# Verification of the tio session/token lifecycle

A shallow embedding of the server logic of the virtual try-on application
(`src/server/storage.ts` and `src/server/routes.ts`).  The database is an
explicit record of lists; each relevant HTTP route becomes a pure function
taking the database, the current time (milliseconds, as `Nat`) and the
request arguments, and returning the HTTP result together with the new
database.  External effects are abstracted as parameters:

* random tokens / temp passwords / file names are passed in as arguments
  (the TypeScript code draws them from `crypto.randomBytes` / `multer`);
* `bcrypt.hash` / `bcrypt.compare` are passed in as function parameters;
* `jwt.sign` is modelled as an injective rendering of the signed claims;
* `JSON.stringify` metadata payloads of usage logs are rendered as plain
  strings (their exact shape is never read back by the server).

SQL `select ... where eq(...)` returning the first row is `List.find?`;
`update ... where eq(...)` is a `List.map` touching the matching rows.
-/

namespace Tio

/-- Row of the `users` table (`@shared/schema`, fields used by the server). -/
structure User where
  id : Nat
  email : String
  password : String
  role : String
  storeId : Option Nat
  mustResetPassword : Bool
  isActive : Bool
deriving DecidableEq

/-- Row of the `stores` table. -/
structure Store where
  id : Nat
  name : String
  isActive : Bool
deriving DecidableEq

/-- Row of the `clothing_items` table (fields used by the customer flow). -/
structure ClothingItem where
  id : Nat
  storeId : Nat
  imageUrl : String
  isAvailable : Bool
  tryOnCount : Nat
deriving DecidableEq

/-- Row of the `qr_sessions` table: store-scoped, time-boxed access grant. -/
structure QrSession where
  id : Nat
  storeId : Nat
  token : String
  expiresAt : Nat
deriving DecidableEq

/-- Row of the `customer_sessions` table: ephemeral per-shopper state. -/
structure CustomerSession where
  id : Nat
  qrSessionId : Nat
  storeId : Nat
  expiresAt : Nat
  photoUrl : Option String
deriving DecidableEq

/-- Row of the `try_on_history` table: append-only generation record. -/
structure TryOnHistory where
  id : Nat
  customerSessionId : Nat
  clothingItemId : Nat
  resultImageUrl : String
deriving DecidableEq

/-- Row of the `usage_logs` table: append-only audit event. -/
structure UsageLog where
  id : Nat
  storeId : Nat
  action : String
  metadata : String
deriving DecidableEq

/-- The persistent store (`DatabaseStorage`): all tables plus a fresh-id
counter standing for the database's id generator. -/
structure DB where
  users : List User
  stores : List Store
  clothingItems : List ClothingItem
  qrSessions : List QrSession
  customerSessions : List CustomerSession
  tryOnHistory : List TryOnHistory
  usageLogs : List UsageLog
  nextId : Nat
deriving DecidableEq

/-- HTTP outcome: `ok` with a JSON payload, or `err status message`
(`res.status(s).json(\x7bmessage\x7d)`). -/
inductive ApiResult (α : Type) where
  | ok : α → ApiResult α
  | err : Nat → String → ApiResult α
deriving DecidableEq

namespace Storage

/-- Storage `getUser`: first row of `users` with the given id. -/
def getUser (db : DB) (id : Nat) : Option User :=
  db.users.find? (fun u => u.id == id)

/-- Storage `getUserByEmail`: first row of `users` with the given email. -/
def getUserByEmail (db : DB) (email : String) : Option User :=
  db.users.find? (fun u => u.email == email)

/-- Storage `updateUser` restricted to the fields the reset-password route writes
(`password`, `mustResetPassword`). -/
def updateUserPassword (db : DB) (id : Nat) (password : String)
    (mustResetPassword : Bool) : DB :=
  { db with users := db.users.map (fun u =>
      if u.id == id then
        { u with password := password, mustResetPassword := mustResetPassword }
      else u) }

/-- Storage `getStore`: first row of `stores` with the given id. -/
def getStore (db : DB) (id : Nat) : Option Store :=
  db.stores.find? (fun s => s.id == id)

/-- Storage `getClothingItem`: first row of `clothing_items` with the given id. -/
def getClothingItem (db : DB) (id : Nat) : Option ClothingItem :=
  db.clothingItems.find? (fun i => i.id == id)

/-- Storage `incrementTryOnCount`: `UPDATE clothing_items SET try_on_count =
try_on_count + 1 WHERE id = ?` — an atomic storage-level increment. -/
def incrementTryOnCount (db : DB) (id : Nat) : DB :=
  { db with clothingItems := db.clothingItems.map (fun i =>
      if i.id == id then { i with tryOnCount := i.tryOnCount + 1 } else i) }

/-- Storage `getQrSessionByToken`: first row of `qr_sessions` whose token matches
AND whose expiry is strictly in the future
(`and(eq(qrSessions.token, token), gt(qrSessions.expiresAt, new Date()))`). -/
def getQrSessionByToken (db : DB) (token : String) (now : Nat) :
    Option QrSession :=
  db.qrSessions.find? (fun s => s.token == token && decide (now < s.expiresAt))

/-- Storage `createQrSession`: insert a row, drawing a fresh id. -/
def createQrSession (db : DB) (storeId : Nat) (token : String)
    (expiresAt : Nat) : QrSession × DB :=
  let qr : QrSession :=
    { id := db.nextId, storeId := storeId, token := token,
      expiresAt := expiresAt }
  (qr, { db with qrSessions := db.qrSessions ++ [qr], nextId := db.nextId + 1 })

/-- Storage `getCustomerSession`: first row of `customer_sessions` with the id. -/
def getCustomerSession (db : DB) (id : Nat) : Option CustomerSession :=
  db.customerSessions.find? (fun s => s.id == id)

/-- Storage `createCustomerSession`: insert a row, drawing a fresh id. -/
def createCustomerSession (db : DB) (qrSessionId storeId expiresAt : Nat) :
    CustomerSession × DB :=
  let cs : CustomerSession :=
    { id := db.nextId, qrSessionId := qrSessionId, storeId := storeId,
      expiresAt := expiresAt, photoUrl := none }
  let db1 : DB :=
    { db with
      customerSessions := db.customerSessions ++ [cs]
      nextId := db.nextId + 1 }
  (cs, db1)

/-- Storage `updateCustomerSession` restricted to the only field the routes write
(`photoUrl`): overwrites the photo reference of the matching rows. -/
def updateCustomerSessionPhoto (db : DB) (id : Nat) (photoUrl : String) : DB :=
  { db with customerSessions := db.customerSessions.map (fun s =>
      if s.id == id then { s with photoUrl := some photoUrl } else s) }

/-- Storage `createTryOnHistory`: append-only insert with a fresh id. -/
def createTryOnHistory (db : DB) (customerSessionId clothingItemId : Nat)
    (resultImageUrl : String) : DB :=
  { db with
    tryOnHistory := db.tryOnHistory ++
      [{ id := db.nextId, customerSessionId := customerSessionId,
         clothingItemId := clothingItemId, resultImageUrl := resultImageUrl }]
    nextId := db.nextId + 1 }

/-- Storage `createUsageLog`: append-only audit insert with a fresh id. -/
def createUsageLog (db : DB) (storeId : Nat) (action metadata : String) : DB :=
  { db with
    usageLogs := db.usageLogs ++
      [{ id := db.nextId, storeId := storeId, action := action,
         metadata := metadata }]
    nextId := db.nextId + 1 }

end Storage

open Storage

/-- The signed bearer token produced by `jwt.sign` on login, modelled as an
injective rendering of the signed claims. -/
def signToken (u : User) : String :=
  "jwt." ++ toString u.id ++ "." ++ u.email ++ "." ++ u.role

/-- Payload of a successful `POST /api/auth/login`. -/
structure LoginResponse where
  token : String
  userId : Nat
  email : String
  role : String
  storeId : Option Nat
  storeName : Option String
  mustResetPassword : Bool
deriving DecidableEq

/-- Route `POST /api/auth/login` (routes.ts 121-173).  `compare` stands for
`bcrypt.compare(password, user.password)`.  Input validation
(`loginSchema`) is assumed passed: `email`/`password` are the parsed
fields.  Pure: the route writes nothing. -/
def login (db : DB) (compare : String → String → Bool)
    (email password : String) : ApiResult LoginResponse :=
  match getUserByEmail db email with
  | none => .err 401 "Invalid credentials"
  | some user =>
    if !user.isActive then .err 401 "Invalid credentials"
    else if !compare password user.password then .err 401 "Invalid credentials"
    else
      let storeName := match user.storeId with
        | none => none
        | some sid => (getStore db sid).map Store.name
      .ok { token := signToken user, userId := user.id, email := user.email,
            role := user.role, storeId := user.storeId,
            storeName := storeName,
            mustResetPassword := user.mustResetPassword }

/-- Route `POST /api/auth/reset-password` (routes.ts 206-236): the authenticated
user's own reset.  `userId` is the id from the verified bearer token;
`compare`/`hash` stand for `bcrypt.compare`/`bcrypt.hash`. -/
def resetPassword (db : DB) (compare : String → String → Bool)
    (hash : String → String) (userId : Nat)
    (currentPassword newPassword : String) : ApiResult String × DB :=
  match getUser db userId with
  | none => (.err 404 "User not found", db)
  | some user =>
    if !compare currentPassword user.password then
      (.err 401 "Current password is incorrect", db)
    else
      (.ok "Password updated successfully",
       updateUserPassword db user.id (hash newPassword) false)

/-- Route `POST /api/stores/:id/reset-password` (routes.ts 342-365): the
owner-initiated reset of a store manager's password.  `tempPassword` is the
random value from `generateTempPassword()`.  The handler hashes the temp
password but never calls `storage.updateUser` — it only returns the temp
password (the source comments: "For now, we'll return the temp password"). -/
def storeResetPassword (db : DB) (storeId : Nat) (tempPassword : String) :
    ApiResult String × DB :=
  match getStore db storeId with
  | none => (.err 404 "Store not found", db)
  | some _ => (.ok tempPassword, db)

/-- Route `POST /api/store/qr/generate` (routes.ts 506-544): issue a QR grant for
the authenticated manager's store.  `token` is the
`randomBytes(32).toString("hex")` value; `expiresAt = now + 1 hour`.
Returns `(token, expiresAt)` and persists the grant plus an audit event. -/
def generateQr (db : DB) (now : Nat) (storeId : Nat) (token : String) :
    ApiResult (String × Nat) × DB :=
  let expiresAt := now + 3600000
  let pair := createQrSession db storeId token expiresAt
  let db1 := pair.2
  let db2 := createUsageLog db1 storeId "qr_generated"
    ("sessionId=" ++ toString pair.1.id)
  (.ok (token, expiresAt), db2)

/-- Payload of a successful `GET /api/qr/:token/validate`. -/
structure ValidateResponse where
  sessionId : Nat
  storeId : Nat
  storeName : String
  expiresAt : Nat
deriving DecidableEq

/-- Route `GET /api/qr/:token/validate` (routes.ts 551-587): exchange a QR token
for a fresh customer session.  Rejects when no unexpired row carries the
token, or the owning store is missing or inactive; otherwise creates a
customer session copying the QR session's expiry verbatim, logs an audit
event and returns the session view. -/
def validateQr (db : DB) (now : Nat) (token : String) :
    ApiResult ValidateResponse × DB :=
  match getQrSessionByToken db token now with
  | none => (.err 404 "Invalid or expired session", db)
  | some qr =>
    match getStore db qr.storeId with
    | none => (.err 404 "Store not available", db)
    | some store =>
      if !store.isActive then (.err 404 "Store not available", db)
      else
        let pair := createCustomerSession db qr.id qr.storeId qr.expiresAt
        let db2 := createUsageLog pair.2 qr.storeId "session_created"
          ("customerSessionId=" ++ toString pair.1.id)
        (.ok { sessionId := pair.1.id, storeId := store.id,
               storeName := store.name, expiresAt := qr.expiresAt }, db2)

/-- Route `POST /api/customer/upload-photo` (routes.ts 610-636), i.e. the spec's
`attachPhoto`.  `photoUrl` is the stored path of the uploaded file (the
`sessionId`-present and file-present guards are assumed passed).  Rejects
with 401 "Session expired" when the session is missing or
`session.expiresAt < now`; otherwise overwrites the photo reference. -/
def uploadPhoto (db : DB) (now : Nat) (sessionId : Nat) (photoUrl : String) :
    ApiResult String × DB :=
  match getCustomerSession db sessionId with
  | none => (.err 401 "Session expired", db)
  | some session =>
    if session.expiresAt < now then (.err 401 "Session expired", db)
    else (.ok photoUrl, updateCustomerSessionPhoto db sessionId photoUrl)

/-- Route `POST /api/tryon` (routes.ts 639-727), i.e. the spec's `requestTryOn`.
`geminiConfigured` is `process.env.GEMINI_API_KEY` being set;
`resultName` is the random output file name used in configured mode.
Checks, in order: session exists and not `expiresAt < now`; a photo is
attached; the item exists and belongs to the session's store.  Then either
degraded mode (result = the garment's own `imageUrl`) or configured mode
(result = the generated file); both write one history row, one atomic
counter increment and one audit log. -/
def tryOn (db : DB) (now : Nat) (geminiConfigured : Bool)
    (resultName : String) (sessionId clothingItemId : Nat) :
    ApiResult String × DB :=
  match getCustomerSession db sessionId with
  | none => (.err 401 "Session expired", db)
  | some session =>
    if session.expiresAt < now then (.err 401 "Session expired", db)
    else match session.photoUrl with
    | none => (.err 400 "Please upload a photo first", db)
    | some _ =>
      match getClothingItem db clothingItemId with
      | none => (.err 404 "Clothing item not found", db)
      | some item =>
        if item.storeId != session.storeId then
          (.err 404 "Clothing item not found", db)
        else
          let resultImageUrl :=
            if geminiConfigured then "/uploads/results/" ++ resultName
            else item.imageUrl
          let mockTag := if geminiConfigured then "" else ",mock=true"
          let db1 := createTryOnHistory db session.id item.id resultImageUrl
          let db2 := incrementTryOnCount db1 item.id
          let db3 := createUsageLog db2 session.storeId "try_on"
            ("clothingItemId=" ++ toString clothingItemId ++
             ",customerSessionId=" ++ toString session.id ++ mockTag)
          (.ok resultImageUrl, db3)

/-- Model of `bcrypt.hash(pw, 10)`: an injective, deterministic rendering
standing for the hash (the server only ever feeds hashes back to
`bcrypt.compare`). -/
def modelHash (pw : String) : String :=
  "bcrypt." ++ pw

/-- Model of `bcrypt.compare(pw, storedHash)`, matching `modelHash`. -/
def modelCompare (pw storedHash : String) : Bool :=
  storedHash == modelHash pw

/-- Success condition of `validateQr`, read off the code's branch
structure: an unexpired row carries the token and its owning store exists
and is active.  It reads only `qrSessions` and `stores`. -/
def qrValid (db : DB) (now : Nat) (token : String) : Bool :=
  match getQrSessionByToken db token now with
  | none => false
  | some qr =>
    match getStore db qr.storeId with
    | none => false
    | some store => store.isActive

/-- Repeated redemption of one QR token: apply the state change of
`validateQr` with the same token and clock `n` times. -/
def iterateValidate (now : Nat) (token : String) : Nat → DB → DB
  | 0, db => db
  | n + 1, db => iterateValidate now token n (validateQr db now token).2

/-! Concrete rows used by witnesses and counterexamples. -/

/-- Example active store. -/
def storeAlpha : Store :=
  { id := 1, name := "Alpha", isActive := true }

/-- Example second active store (for cross-tenant scenarios). -/
def storeBeta : Store :=
  { id := 2, name := "Beta", isActive := true }

/-- Example inactive store. -/
def storeGamma : Store :=
  { id := 3, name := "Gamma", isActive := false }

/-- Example company-owner user. -/
def ownerUser : User :=
  { id := 1, email := "owner@tio.example", password := modelHash "ownerpw",
    role := "company_owner", storeId := none, mustResetPassword := false,
    isActive := true }

/-- Example store-manager user of `storeAlpha`. -/
def managerUser : User :=
  { id := 2, email := "manager@alpha.example", password := modelHash "oldpw",
    role := "store_manager", storeId := some 1, mustResetPassword := false,
    isActive := true }

/-- Example deactivated user (the `isActive = false` login case). -/
def ghostUser : User :=
  { id := 3, email := "ghost@tio.example", password := modelHash "ghostpw",
    role := "store_manager", storeId := some 2, mustResetPassword := false,
    isActive := false }

/-- Example clothing item of `storeAlpha`. -/
def itemA : ClothingItem :=
  { id := 10, storeId := 1, imageUrl := "/uploads/clothing/a.png",
    isAvailable := true, tryOnCount := 0 }

/-- Example clothing item of `storeBeta` (the cross-tenant target). -/
def itemB : ClothingItem :=
  { id := 11, storeId := 2, imageUrl := "/uploads/clothing/b.png",
    isAvailable := true, tryOnCount := 0 }

/-- Example QR grant for `storeAlpha`, expiring at time 5000. -/
def qrAlpha : QrSession :=
  { id := 20, storeId := 1, token := "tok1", expiresAt := 5000 }

/-- Example customer session with an attached photo. -/
def sessPhoto : CustomerSession :=
  { id := 30, qrSessionId := 20, storeId := 1, expiresAt := 5000,
    photoUrl := some "/uploads/customers/p.png" }

/-- Example customer session without a photo. -/
def sessNoPhoto : CustomerSession :=
  { id := 31, qrSessionId := 20, storeId := 1, expiresAt := 5000,
    photoUrl := none }

/-- Example database state used by the concrete witnesses. -/
def exDb : DB :=
  { users := [ownerUser, managerUser, ghostUser],
    stores := [storeAlpha, storeBeta, storeGamma],
    clothingItems := [itemA, itemB],
    qrSessions := [qrAlpha],
    customerSessions := [sessPhoto, sessNoPhoto],
    tryOnHistory := [],
    usageLogs := [],
    nextId := 100 }

/-! ## Helper lemmas -/

/-- Successful validation is exactly the `qrValid` condition. -/
theorem validateQr_ok_iff_qrValid (db : DB) (now : Nat) (token : String) :
    (∃ r, (validateQr db now token).1 = ApiResult.ok r) ↔
      qrValid db now token = true := by
  unfold validateQr qrValid
  cases h : getQrSessionByToken db token now with
  | none => simp
  | some qr =>
    cases h2 : getStore db qr.storeId with
    | none => simp [h2]
    | some st =>
      cases ha : st.isActive <;> simp [h2, ha]

/-- With pairwise-distinct tokens, `qrValid` unfolds to the spec-level
existence statement about the tables. -/
theorem qrValid_iff_exists (db : DB) (now : Nat) (token : String)
    (htok : ∀ a ∈ db.qrSessions, ∀ b ∈ db.qrSessions,
      a.token = b.token → a = b) :
    qrValid db now token = true ↔
      ∃ qr ∈ db.qrSessions, qr.token = token ∧ now < qr.expiresAt ∧
        ∃ st, getStore db qr.storeId = some st ∧ st.isActive = true := by
  constructor
  · intro h
    cases hq : getQrSessionByToken db token now with
    | none => simp [qrValid, hq] at h
    | some qr =>
      have hmem := List.mem_of_find?_eq_some hq
      have hpred := List.find?_some hq
      simp only [Bool.and_eq_true, beq_iff_eq, decide_eq_true_eq] at hpred
      refine ⟨qr, hmem, hpred.1, hpred.2, ?_⟩
      cases hs : getStore db qr.storeId with
      | none => simp [qrValid, hq, hs] at h
      | some st =>
        simp only [qrValid, hq, hs] at h
        exact ⟨st, rfl, h⟩
  · rintro ⟨qr, hmem, htk, hexp, st, hst, hact⟩
    have hsome : (getQrSessionByToken db token now).isSome := by
      unfold getQrSessionByToken
      exact List.find?_isSome.mpr ⟨qr, hmem, by simp [htk, hexp]⟩
    cases hq : getQrSessionByToken db token now with
    | none => rw [hq] at hsome; exact absurd hsome (by simp)
    | some qr2 =>
      have hmem2 := List.mem_of_find?_eq_some hq
      have hpred2 := List.find?_some hq
      simp only [Bool.and_eq_true, beq_iff_eq, decide_eq_true_eq] at hpred2
      have heq : qr2 = qr := htok qr2 hmem2 qr hmem (by rw [hpred2.1, htk])
      subst heq
      simp [qrValid, hq, hst, hact]

/-- A rejected validation changes nothing and returns one of the two 404
messages. -/
theorem validateQr_rejected (db : DB) (now : Nat) (token : String)
    (h : qrValid db now token = false) :
    (validateQr db now token).2 = db ∧
      ((validateQr db now token).1 =
          ApiResult.err 404 "Invalid or expired session" ∨
        (validateQr db now token).1 =
          ApiResult.err 404 "Store not available") := by
  unfold validateQr
  cases hq : getQrSessionByToken db token now with
  | none => simp
  | some qr =>
    cases hs : getStore db qr.storeId with
    | none => simp [hs]
    | some st =>
      have hfalse : st.isActive = false := by
        simpa [qrValid, hq, hs] using h
      simp [hs, hfalse]

/-! ## Claim theorems -/

/-- C1: for every QR token, `validate(token)` succeeds (creating a customer
session) if and only if a QrSession with that token exists, `now` is
strictly before its `expiresAt`, and the owning store exists and is active;
in every other case the request is rejected (a 404, with the database left
unchanged).  Stated under the well-formedness assumption that QR tokens are
pairwise distinct (they are 256-bit random values). -/
theorem validateQr_success_iff (db : DB) (now : Nat) (token : String)
    (htok : ∀ a ∈ db.qrSessions, ∀ b ∈ db.qrSessions,
      a.token = b.token → a = b) :
    ((∃ r, (validateQr db now token).1 = ApiResult.ok r) ↔
      ∃ qr ∈ db.qrSessions, qr.token = token ∧ now < qr.expiresAt ∧
        ∃ st, getStore db qr.storeId = some st ∧ st.isActive = true) ∧
    ((¬ ∃ qr ∈ db.qrSessions, qr.token = token ∧ now < qr.expiresAt ∧
        ∃ st, getStore db qr.storeId = some st ∧ st.isActive = true) →
      (validateQr db now token).2 = db ∧
        ((validateQr db now token).1 =
            ApiResult.err 404 "Invalid or expired session" ∨
          (validateQr db now token).1 =
            ApiResult.err 404 "Store not available")) := by
  have hiff := (validateQr_ok_iff_qrValid db now token).trans
    (qrValid_iff_exists db now token htok)
  refine ⟨hiff, fun hnot => ?_⟩
  have hfalse : qrValid db now token = false := by
    cases hv : qrValid db now token with
    | false => rfl
    | true => exact absurd ((qrValid_iff_exists db now token htok).mp hv) hnot
  exact validateQr_rejected db now token hfalse

/-- Witness for C1: on the concrete example database the hypothesis holds
and the theorem applies at token "tok1", time 1000. -/
theorem validateQr_success_iff_witness :
    (∀ a ∈ exDb.qrSessions, ∀ b ∈ exDb.qrSessions,
      a.token = b.token → a = b) ∧
    ((∃ r, (validateQr exDb 1000 "tok1").1 = ApiResult.ok r) ↔
      ∃ qr ∈ exDb.qrSessions, qr.token = "tok1" ∧ 1000 < qr.expiresAt ∧
        ∃ st, getStore exDb qr.storeId = some st ∧ st.isActive = true) :=
  ⟨by decide, (validateQr_success_iff exDb 1000 "tok1" (by decide)).1⟩

/-- C2 counterexample: at the exact expiry instant the claim fails.  The
session `sessPhoto` expires at 5000; invoking try-on at `now = 5000`
(so `now ≥ expiresAt`) does NOT fail with Expired — the code's guard is
`session.expiresAt < now`, which is false at equality, so the try-on
completes and returns the garment image. -/
theorem tryOn_at_expiry_succeeds :
    getCustomerSession exDb 30 = some sessPhoto ∧
    sessPhoto.expiresAt = 5000 ∧
    (tryOn exDb 5000 false "r" 30 10).1 =
      ApiResult.ok "/uploads/clothing/a.png" := by
  decide

/-- C2 (amended): `requestTryOn` fails with Expired — returning the database
unchanged, hence writing no history record, no counter increment and no
audit log — whenever invoked at a time strictly after the session's
`expiresAt` (the code's guard is `session.expiresAt < now`, so the boundary
instant `now = expiresAt` is still accepted), regardless of whether the
session was live when the photo was attached. -/
theorem tryOn_expired_no_writes (db : DB) (now : Nat) (cfg : Bool)
    (rn : String) (sid cid : Nat) (s : CustomerSession)
    (hs : getCustomerSession db sid = some s) (h : s.expiresAt < now) :
    tryOn db now cfg rn sid cid = (ApiResult.err 401 "Session expired", db) := by
  unfold tryOn
  rw [hs]
  simp [h]

/-- Witness for C2's amended theorem: the photo-holding session, invoked
after expiry. -/
theorem tryOn_expired_no_writes_witness :
    (getCustomerSession exDb 30 = some sessPhoto ∧
      sessPhoto.expiresAt < 6000) ∧
    tryOn exDb 6000 false "r" 30 10 =
      (ApiResult.err 401 "Session expired", exDb) :=
  ⟨⟨by decide, by decide⟩,
   tryOn_expired_no_writes exDb 6000 false "r" 30 10 sessPhoto
     (by decide) (by decide)⟩

/-- C3: for a live customer session with an attached photo, when the
requested item exists but belongs to a different store, `requestTryOn`
fails with the exact same NotFound error (404, "Clothing item not found")
as when the item does not exist at all, and performs no writes (the
database is returned unchanged). -/
theorem tryOn_cross_tenant_notFound (db : DB) (now : Nat) (cfg : Bool)
    (rn : String) (sid cid : Nat) (s : CustomerSession) (item : ClothingItem)
    (hs : getCustomerSession db sid = some s) (hlive : now < s.expiresAt)
    (hp : s.photoUrl.isSome) (hi : getClothingItem db cid = some item)
    (hx : item.storeId ≠ s.storeId) :
    tryOn db now cfg rn sid cid =
      (ApiResult.err 404 "Clothing item not found", db) ∧
    (∀ cid2, getClothingItem db cid2 = none →
      tryOn db now cfg rn sid cid2 =
        (ApiResult.err 404 "Clothing item not found", db)) := by
  have hnotlt : ¬ s.expiresAt < now := by omega
  constructor
  · unfold tryOn
    rw [hs]
    cases hph : s.photoUrl with
    | none => rw [hph] at hp; simp at hp
    | some p => simp [hnotlt, hph, hi, hx]
  · intro cid2 h2
    unfold tryOn
    rw [hs]
    cases hph : s.photoUrl with
    | none => rw [hph] at hp; simp at hp
    | some p => simp [hnotlt, hph, h2]

/-- Witness for C3: session of store 1, item of store 2. -/
theorem tryOn_cross_tenant_notFound_witness :
    (getCustomerSession exDb 30 = some sessPhoto ∧
      1000 < sessPhoto.expiresAt ∧ sessPhoto.photoUrl.isSome = true ∧
      getClothingItem exDb 11 = some itemB ∧
      itemB.storeId ≠ sessPhoto.storeId) ∧
    tryOn exDb 1000 false "r" 30 11 =
      (ApiResult.err 404 "Clothing item not found", exDb) :=
  ⟨⟨by decide, by decide, by decide, by decide, by decide⟩,
   (tryOn_cross_tenant_notFound exDb 1000 false "r" 30 11 sessPhoto itemB
     (by decide) (by decide) (by decide) (by decide) (by decide)).1⟩

/-- C4: round-trip.  Issuing a QR grant for a store at time `t0` and
validating the issued token at any time `t1` before its expiry returns a
customer session whose `expiresAt` is the QrSession's `expiresAt`
verbatim, i.e. `t0 + 1 hour` — not a value freshly extended from the
validation time `t1` — both in the response and in the stored
CustomerSession row.  `hfresh` says the random token is new. -/
theorem issue_validate_roundtrip (db : DB) (t0 t1 storeId : Nat)
    (token : String) (st : Store)
    (hst : getStore db storeId = some st) (hact : st.isActive = true)
    (hfresh : ∀ qr ∈ db.qrSessions, qr.token ≠ token)
    (ht : t1 < t0 + 3600000) :
    (validateQr (generateQr db t0 storeId token).2 t1 token).1 =
      ApiResult.ok { sessionId := db.nextId + 2, storeId := st.id,
                     storeName := st.name, expiresAt := t0 + 3600000 } ∧
    (validateQr (generateQr db t0 storeId token).2 t1 token).2.customerSessions =
      db.customerSessions ++
        [{ id := db.nextId + 2, qrSessionId := db.nextId, storeId := storeId,
           expiresAt := t0 + 3600000, photoUrl := none }] := by
  have hq1 : getQrSessionByToken (generateQr db t0 storeId token).2 token t1 =
      some { id := db.nextId, storeId := storeId, token := token,
             expiresAt := t0 + 3600000 } := by
    have hnone : db.qrSessions.find?
        (fun s => s.token == token && decide (t1 < s.expiresAt)) = none := by
      rw [List.find?_eq_none]
      intro x hx
      simp [hfresh x hx]
    unfold generateQr createQrSession createUsageLog getQrSessionByToken
    simp [List.find?_append, hnone, ht]
  have hs1 : getStore (generateQr db t0 storeId token).2 storeId = some st := by
    unfold generateQr createQrSession createUsageLog getStore
    unfold getStore at hst
    simpa using hst
  unfold validateQr
  rw [hq1]
  simp only [hs1, hact, Bool.not_true, Bool.false_eq_true, if_false]
  unfold createCustomerSession createUsageLog
  constructor
  · simp [generateQr, createQrSession, createUsageLog]
  · simp [generateQr, createQrSession, createUsageLog]

/-- Witness for C4 on the example database with a fresh token. -/
theorem issue_validate_roundtrip_witness :
    (getStore exDb 1 = some storeAlpha ∧ storeAlpha.isActive = true ∧
      (∀ qr ∈ exDb.qrSessions, qr.token ≠ "fresh") ∧
      (100 : Nat) < 0 + 3600000) ∧
    (validateQr (generateQr exDb 0 1 "fresh").2 100 "fresh").1 =
      ApiResult.ok { sessionId := exDb.nextId + 2, storeId := storeAlpha.id,
                     storeName := storeAlpha.name, expiresAt := 0 + 3600000 } :=
  ⟨⟨by decide, by decide, by decide, by decide⟩,
   (issue_validate_roundtrip exDb 0 100 1 "fresh" storeAlpha
     (by decide) (by decide) (by decide) (by decide)).1⟩

/-- C5: degraded mode.  For a live customer session with an attached photo
and an item of the same store, when the external AI credential is absent
(`geminiConfigured = false`) the try-on succeeds returning the garment
item's own image reference, and the new database differs from the old one
by exactly one appended TryOnHistory record (carrying that same image
reference), exactly one counter increment on the matching item, and one
appended audit log entry. -/
theorem tryOn_degraded_writes (db : DB) (now : Nat) (rn : String)
    (sid cid : Nat) (s : CustomerSession) (item : ClothingItem) (p : String)
    (hs : getCustomerSession db sid = some s) (hlive : now < s.expiresAt)
    (hp : s.photoUrl = some p) (hi : getClothingItem db cid = some item)
    (hm : item.storeId = s.storeId) :
    tryOn db now false rn sid cid =
      (ApiResult.ok item.imageUrl,
       { db with
         tryOnHistory := db.tryOnHistory ++
           [{ id := db.nextId, customerSessionId := s.id,
              clothingItemId := item.id, resultImageUrl := item.imageUrl }]
         clothingItems := db.clothingItems.map (fun it =>
           if it.id == item.id then
             { it with tryOnCount := it.tryOnCount + 1 }
           else it)
         usageLogs := db.usageLogs ++
           [{ id := db.nextId + 1, storeId := s.storeId, action := "try_on",
              metadata := "clothingItemId=" ++ toString cid ++
                ",customerSessionId=" ++ toString s.id ++ ",mock=true" }]
         nextId := db.nextId + 2 }) := by
  have hnotlt : ¬ s.expiresAt < now := by omega
  unfold tryOn
  rw [hs]
  simp [hnotlt, hp, hi, hm, Storage.createTryOnHistory,
    Storage.incrementTryOnCount, Storage.createUsageLog]

/-- Witness for C5: degraded try-on of item 10 in session 30. -/
theorem tryOn_degraded_writes_witness :
    (getCustomerSession exDb 30 = some sessPhoto ∧
      1000 < sessPhoto.expiresAt ∧
      sessPhoto.photoUrl = some "/uploads/customers/p.png" ∧
      getClothingItem exDb 10 = some itemA ∧
      itemA.storeId = sessPhoto.storeId) ∧
    (tryOn exDb 1000 false "r" 30 10).1 = ApiResult.ok itemA.imageUrl :=
  ⟨⟨by decide, by decide, by decide, by decide, by decide⟩,
   by rw [tryOn_degraded_writes exDb 1000 "r" 30 10 sessPhoto itemA
     "/uploads/customers/p.png" (by decide) (by decide) (by decide)
     (by decide) (by decide)]⟩

/-- C6: for every live customer session without an attached photo
reference, `requestTryOn` fails with NoPhoto (400, "Please upload a photo
first") and returns the database unchanged: no TryOnHistory row, no
counter increment, no audit log entry. -/
theorem tryOn_noPhoto_no_writes (db : DB) (now : Nat) (cfg : Bool)
    (rn : String) (sid cid : Nat) (s : CustomerSession)
    (hs : getCustomerSession db sid = some s) (hlive : now < s.expiresAt)
    (hp : s.photoUrl = none) :
    tryOn db now cfg rn sid cid =
      (ApiResult.err 400 "Please upload a photo first", db) := by
  have hnotlt : ¬ s.expiresAt < now := by omega
  unfold tryOn
  rw [hs]
  simp [hnotlt, hp]

/-- Witness for C6: the photo-less session 31. -/
theorem tryOn_noPhoto_no_writes_witness :
    (getCustomerSession exDb 31 = some sessNoPhoto ∧
      1000 < sessNoPhoto.expiresAt ∧ sessNoPhoto.photoUrl = none) ∧
    tryOn exDb 1000 false "r" 31 10 =
      (ApiResult.err 400 "Please upload a photo first", exDb) :=
  ⟨⟨by decide, by decide, by decide⟩,
   tryOn_noPhoto_no_writes exDb 1000 false "r" 31 10 sessNoPhoto
     (by decide) (by decide) (by decide)⟩

/-- Validation success reads only the `qrSessions` and `stores` tables. -/
theorem qrValid_congr (db1 db2 : DB) (now : Nat) (token : String)
    (hq : db1.qrSessions = db2.qrSessions) (hs : db1.stores = db2.stores) :
    qrValid db1 now token = qrValid db2 now token := by
  unfold qrValid getQrSessionByToken getStore
  rw [hq, hs]

/-- One successful validation leaves `qrSessions` and `stores` untouched
and appends exactly one customer session carrying the fresh id. -/
theorem validateQr_step (db : DB) (now : Nat) (token : String)
    (h : qrValid db now token = true) :
    (validateQr db now token).2.qrSessions = db.qrSessions ∧
    (validateQr db now token).2.stores = db.stores ∧
    (∃ cs : CustomerSession, cs.id = db.nextId ∧
      (validateQr db now token).2.customerSessions =
        db.customerSessions ++ [cs]) ∧
    (validateQr db now token).2.nextId = db.nextId + 2 := by
  cases hq : getQrSessionByToken db token now with
  | none => simp [qrValid, hq] at h
  | some qr =>
    cases hst : getStore db qr.storeId with
    | none => simp [qrValid, hq, hst] at h
    | some st =>
      have hact : st.isActive = true := by simpa [qrValid, hq, hst] using h
      unfold validateQr
      rw [hq]
      refine ⟨?_, ?_, ?_, ?_⟩
      · simp [hst, hact, Storage.createCustomerSession, Storage.createUsageLog]
      · simp [hst, hact, Storage.createCustomerSession, Storage.createUsageLog]
      · exact ⟨⟨db.nextId, qr.id, qr.storeId, qr.expiresAt, none⟩, rfl,
          by simp [hst, hact, Storage.createCustomerSession,
            Storage.createUsageLog]⟩
      · simp [hst, hact, Storage.createCustomerSession, Storage.createUsageLog]

/-- C7: a successful validation does not revoke the token.  Starting from
any state in which `validate(token)` succeeds (with well-formed session
ids), after any number `n` of repeated redemptions of the same still-valid
token: validation still succeeds (no `usedAt`/consumed flag — the
`qrSessions` table is unchanged), exactly `n` additional customer sessions
exist, and all customer sessions remain pairwise distinct (distinct ids). -/
theorem validateQr_unlimited_redemption (db : DB) (now : Nat) (token : String)
    (hok : ∃ r, (validateQr db now token).1 = ApiResult.ok r)
    (hids : ∀ cs ∈ db.customerSessions, cs.id < db.nextId)
    (hnodup : db.customerSessions.Pairwise (fun a b => a.id ≠ b.id)) :
    ∀ n : Nat,
      (∃ r, (validateQr (iterateValidate now token n db) now token).1 =
        ApiResult.ok r) ∧
      (iterateValidate now token n db).qrSessions = db.qrSessions ∧
      (iterateValidate now token n db).customerSessions.length =
        db.customerSessions.length + n ∧
      (iterateValidate now token n db).customerSessions.Pairwise
        (fun a b => a.id ≠ b.id) := by
  have main : ∀ n : Nat, ∀ d : DB, qrValid d now token = true →
      (∀ cs ∈ d.customerSessions, cs.id < d.nextId) →
      d.customerSessions.Pairwise (fun a b => a.id ≠ b.id) →
      qrValid (iterateValidate now token n d) now token = true ∧
      (iterateValidate now token n d).qrSessions = d.qrSessions ∧
      (iterateValidate now token n d).stores = d.stores ∧
      (iterateValidate now token n d).customerSessions.length =
        d.customerSessions.length + n ∧
      (iterateValidate now token n d).customerSessions.Pairwise
        (fun a b => a.id ≠ b.id) := by
    intro n
    induction n with
    | zero =>
      intro d h1 h2 h3
      exact ⟨h1, rfl, rfl, rfl, h3⟩
    | succ n ih =>
      intro d h1 h2 h3
      obtain ⟨hqr, hstores, ⟨cs, hcsid, hcss⟩, hnext⟩ :=
        validateQr_step d now token h1
      have hstep : iterateValidate now token (n + 1) d =
          iterateValidate now token n (validateQr d now token).2 := by
        simp only [iterateValidate]
      have hval1 : qrValid (validateQr d now token).2 now token = true := by
        rw [qrValid_congr (validateQr d now token).2 d now token hqr hstores]
        exact h1
      have hids1 : ∀ c ∈ (validateQr d now token).2.customerSessions,
          c.id < (validateQr d now token).2.nextId := by
        intro c hc
        rw [hcss] at hc
        rw [hnext]
        rcases List.mem_append.mp hc with hc | hc
        · have := h2 c hc; omega
        · simp only [List.mem_singleton] at hc
          subst hc; omega
      have hnodup1 : (validateQr d now token).2.customerSessions.Pairwise
          (fun a b => a.id ≠ b.id) := by
        rw [hcss]
        refine List.pairwise_append.mpr ⟨h3, by simp, ?_⟩
        intro a ha b hb
        simp only [List.mem_singleton] at hb
        subst hb
        have := h2 a ha
        omega
      have res := ih (validateQr d now token).2 hval1 hids1 hnodup1
      rw [hstep]
      refine ⟨res.1, ?_, ?_, ?_, res.2.2.2.2⟩
      · rw [res.2.1, hqr]
      · rw [res.2.2.1, hstores]
      · rw [res.2.2.2.1, hcss]
        simp [Nat.add_assoc, Nat.add_comm 1 n]
  intro n
  have h1 := (validateQr_ok_iff_qrValid db now token).mp hok
  have res := main n db h1 hids hnodup
  exact ⟨(validateQr_ok_iff_qrValid _ now token).mpr res.1, res.2.1,
    res.2.2.2.1, res.2.2.2.2⟩

/-- Witness for C7: two redemptions of the still-valid token "tok1" on the
example database add two customer sessions. -/
theorem validateQr_unlimited_redemption_witness :
    ((∃ r, (validateQr exDb 1000 "tok1").1 = ApiResult.ok r) ∧
      (∀ cs ∈ exDb.customerSessions, cs.id < exDb.nextId) ∧
      exDb.customerSessions.Pairwise (fun a b => a.id ≠ b.id)) ∧
    (iterateValidate 1000 "tok1" 2 exDb).customerSessions.length =
      exDb.customerSessions.length + 2 :=
  ⟨⟨⟨{ sessionId := 100, storeId := 1, storeName := "Alpha",
       expiresAt := 5000 }, by decide⟩, by decide, by decide⟩,
   ((validateQr_unlimited_redemption exDb 1000 "tok1"
     ⟨{ sessionId := 100, storeId := 1, storeName := "Alpha",
        expiresAt := 5000 }, by decide⟩
     (by decide) (by decide)) 2).2.2.1⟩

/-- Looking a session up after a photo update returns it with the new
photo reference. -/
theorem getCustomerSession_after_update (db : DB) (sid : Nat) (p : String)
    (s : CustomerSession) (hs : getCustomerSession db sid = some s) :
    getCustomerSession (updateCustomerSessionPhoto db sid p) sid =
      some { s with photoUrl := some p } := by
  unfold getCustomerSession at hs
  have hpred : (s.id == sid) = true := by
    simpa using List.find?_some hs
  unfold getCustomerSession updateCustomerSessionPhoto
  rw [List.find?_map]
  have hcomp : ((fun c : CustomerSession => c.id == sid) ∘
      (fun c => if c.id == sid then { c with photoUrl := some p } else c)) =
      (fun c : CustomerSession => c.id == sid) := by
    funext c
    by_cases h : c.id = sid <;> simp [h]
  rw [hcomp, hs]
  have hid : s.id = sid := by simpa using hpred
  simp [hid]

/-- Photo updates overwrite: only the last one matters. -/
theorem update_photo_overwrites (db : DB) (sid : Nat) (p1 p2 : String) :
    updateCustomerSessionPhoto (updateCustomerSessionPhoto db sid p1) sid p2 =
      updateCustomerSessionPhoto db sid p2 := by
  unfold updateCustomerSessionPhoto
  simp only [List.map_map]
  have hcomp : ((fun c : CustomerSession =>
      if c.id == sid then { c with photoUrl := some p2 } else c) ∘
      (fun c => if c.id == sid then { c with photoUrl := some p1 } else c)) =
      (fun c : CustomerSession =>
        if c.id == sid then { c with photoUrl := some p2 } else c) := by
    funext c
    by_cases h : c.id = sid <;> simp [h]
  rw [hcomp]

/-- C8: `attachPhoto` is idempotent in the overwrite sense.  For a live
customer session, attaching `p2` succeeds and sets the session's photo
reference to `p2`; attaching `p1` and then `p2` leaves the database in
exactly the state of attaching `p2` alone (the result depends only on the
last call); and in general the outcome is one of ok or Expired (the code
folds the NotFound case into the same 401 "Session expired" response). -/
theorem attachPhoto_overwrite (db : DB) (now : Nat) (sid : Nat)
    (p1 p2 : String) (s : CustomerSession)
    (hs : getCustomerSession db sid = some s) (hlive : now < s.expiresAt) :
    (uploadPhoto db now sid p2).1 = ApiResult.ok p2 ∧
    getCustomerSession (uploadPhoto db now sid p2).2 sid =
      some { s with photoUrl := some p2 } ∧
    (uploadPhoto (uploadPhoto db now sid p1).2 now sid p2).2 =
      (uploadPhoto db now sid p2).2 ∧
    (∀ (db2 : DB) (now2 sid2 : Nat) (q : String),
      (uploadPhoto db2 now2 sid2 q).1 = ApiResult.ok q ∨
      (uploadPhoto db2 now2 sid2 q).1 =
        ApiResult.err 401 "Session expired") := by
  have hnotlt : ¬ s.expiresAt < now := by omega
  have hfirst : ∀ q : String, uploadPhoto db now sid q =
      (ApiResult.ok q, updateCustomerSessionPhoto db sid q) := by
    intro q
    unfold uploadPhoto
    rw [hs]
    simp [hnotlt]
  refine ⟨?_, ?_, ?_, ?_⟩
  · rw [hfirst p2]
  · rw [hfirst p2]
    exact getCustomerSession_after_update db sid p2 s hs
  · rw [hfirst p1, hfirst p2]
    have hs1 := getCustomerSession_after_update db sid p1 s hs
    unfold uploadPhoto
    rw [hs1]
    simp only []
    rw [if_neg (by simpa using hnotlt)]
    simp [update_photo_overwrites]
  · intro db2 now2 sid2 q
    unfold uploadPhoto
    cases h2 : getCustomerSession db2 sid2 with
    | none => right; simp
    | some s2 =>
      by_cases he : s2.expiresAt < now2
      · right; simp [he]
      · left; simp [he]

/-- Witness for C8: overwriting the photo of live session 31. -/
theorem attachPhoto_overwrite_witness :
    (getCustomerSession exDb 31 = some sessNoPhoto ∧
      1000 < sessNoPhoto.expiresAt) ∧
    (uploadPhoto (uploadPhoto exDb 1000 31 "/uploads/customers/x.png").2
        1000 31 "/uploads/customers/y.png").2 =
      (uploadPhoto exDb 1000 31 "/uploads/customers/y.png").2 :=
  ⟨⟨by decide, by decide⟩,
   (attachPhoto_overwrite exDb 1000 31 "/uploads/customers/x.png"
     "/uploads/customers/y.png" sessNoPhoto (by decide) (by decide)).2.2.1⟩

/-- C9 (code bug): the claim says every password-reset operation replaces
the targeted user's stored hash.  The user's own reset
(`POST /api/auth/reset-password`) does; but the owner-initiated reset of a
store manager (`POST /api/stores/:id/reset-password`) never mutates any
user record — it returns the generated temp password while leaving the
database exactly as it was, so the returned password does not
authenticate.  Shown: (1) the owner reset leaves every database unchanged;
(2) on the example database it still answers 200 with the temp password;
(3) the manager's stored hash is still the old one afterwards; (4) logging
in with the returned temp password fails; (5) by contrast the self reset
does replace the stored hash. -/
theorem storeResetPassword_no_mutation :
    (∀ (db : DB) (storeId : Nat) (temp : String),
      (storeResetPassword db storeId temp).2 = db) ∧
    (storeResetPassword exDb 1 "a1b2c3d4").1 = ApiResult.ok "a1b2c3d4" ∧
    (getUser (storeResetPassword exDb 1 "a1b2c3d4").2 2).map User.password =
      some (modelHash "oldpw") ∧
    login (storeResetPassword exDb 1 "a1b2c3d4").2 modelCompare
      "manager@alpha.example" "a1b2c3d4" =
      ApiResult.err 401 "Invalid credentials" ∧
    (getUser (resetPassword exDb modelCompare modelHash 2
        "oldpw" "newpw").2 2).map User.password =
      some (modelHash "newpw") := by
  refine ⟨?_, by decide, by decide, by decide, by decide⟩
  intro db storeId temp
  unfold storeResetPassword
  cases h : getStore db storeId <;> rfl

/-- C10: when a user record exists for the given email but its `isActive`
flag is false, login is rejected with the same 401 "Invalid credentials"
response as a wrong password (no distinction leaked) and no bearer token
is issued (the result is an error, which carries no token). -/
theorem login_inactive_unauthorized (db : DB)
    (compare : String → String → Bool) (email password : String) (u : User)
    (hu : getUserByEmail db email = some u) (hinactive : u.isActive = false) :
    login db compare email password =
      ApiResult.err 401 "Invalid credentials" ∧
    (∀ (db2 : DB) (compare2 : String → String → Bool)
      (email2 password2 : String) (u2 : User),
      getUserByEmail db2 email2 = some u2 → u2.isActive = true →
      compare2 password2 u2.password = false →
      login db2 compare2 email2 password2 =
        ApiResult.err 401 "Invalid credentials") := by
  constructor
  · unfold login
    rw [hu]
    simp [hinactive]
  · intro db2 compare2 email2 password2 u2 h1 h2 h3
    unfold login
    rw [h1]
    simp [h2, h3]

/-- Witness for C10: the deactivated user, presenting the CORRECT
password, is still rejected. -/
theorem login_inactive_unauthorized_witness :
    (getUserByEmail exDb "ghost@tio.example" = some ghostUser ∧
      ghostUser.isActive = false) ∧
    login exDb modelCompare "ghost@tio.example" "ghostpw" =
      ApiResult.err 401 "Invalid credentials" :=
  ⟨⟨by decide, by decide⟩,
   (login_inactive_unauthorized exDb modelCompare "ghost@tio.example"
     "ghostpw" ghostUser (by decide) (by decide)).1⟩

end Tio
